import Mathlib

/-!
Shallow embedding of the budget-tracker persistence core
(`src/services/database.ts`) and proofs about its operations.

Modelling conventions:
* Amounts are rationals (`ℚ`): the source uses JS numbers and the spec
  requires exact arithmetic on the totals it states.
* A JS `Date` is modelled by its calendar components down to milliseconds;
  `DateT.val` is the lexicographic encoding, order-isomorphic to the
  millisecond timestamp for in-range components.  Transactions store the
  parsed date value directly (string parsing is modelled as the identity
  on components).
* The AsyncStorage key-value store is a record of three optional decoded
  collections (`none` models an absent key) together with failure-injection
  flags, one per key and direction, modelling a throwing underlying store.
  A `try/catch` that swallows an error and returns a default is embedded by
  returning that default when the corresponding flag is set; a `catch` that
  rethrows is embedded by returning `Except.error` together with the store
  state reached so far.
* `Date.now()+random` id generation is nondeterministic in the source, so
  the generated id is passed to `addTransaction` as an explicit parameter.
* JS object literals (`Record<string, number>`) are association lists in
  key-insertion order; `acc[k] = (acc[k] || 0) + a` updates the first
  binding of `k` in place or appends a new one.
-/

namespace BudgetApp

inductive TxType where
  | income
  | expense
deriving DecidableEq

inductive GoalPeriod where
  | monthly
  | annual
deriving DecidableEq

structure DateT where
  year : Nat
  month : Nat
  day : Nat
  hour : Nat
  minute : Nat
  second : Nat
  ms : Nat
deriving DecidableEq

/-- Lexicographic encoding of a date; monotone in the components, matching
the ordering of JS `Date.getTime()` for in-range components. -/
def DateT.val (d : DateT) : Nat :=
  (((((d.year * 13 + d.month) * 32 + d.day) * 24 + d.hour) * 60 + d.minute)
      * 60 + d.second) * 1000 + d.ms

structure Transaction where
  id : String
  type : TxType
  category : String
  amount : ℚ
  description : Option String
  date : DateT
deriving DecidableEq

structure BudgetGoal where
  id : String
  category : String
  amount : ℚ
  period : GoalPeriod
  isActive : Bool
  createdAt : String
deriving DecidableEq

structure Category where
  id : String
  name : String
  type : TxType
  isCustom : Bool
  icon : Option String
  createdAt : String
deriving DecidableEq

/-- A draft transaction: `Omit<Transaction, 'id'>`. -/
structure TxDraft where
  type : TxType
  category : String
  amount : ℚ
  description : Option String
  date : DateT
deriving DecidableEq

/-- `Partial<Category>`: each field optionally supplied. -/
structure CategoryUpdate where
  id : Option String
  name : Option String
  type : Option TxType
  isCustom : Option Bool
  icon : Option (Option String)
  createdAt : Option String
deriving DecidableEq

/-- Errors thrown by the service: `'Category not found'`,
`'Cannot delete default categories'`, and failures of the underlying store. -/
inductive DBErr where
  | notFound
  | cannotDeleteDefault
  | storeFailure
deriving DecidableEq

/-- The AsyncStorage key-value store: the three decoded collections
(`none` = key absent) plus failure-injection flags for each key/direction. -/
structure KV where
  transKey : Option (List Transaction)
  goalsKey : Option (List BudgetGoal)
  catsKey : Option (List Category)
  failTransRead : Bool
  failTransWrite : Bool
  failGoalsRead : Bool
  failGoalsWrite : Bool
  failCatsRead : Bool
  failCatsWrite : Bool
deriving DecidableEq

/-- `AsyncStorage.setItem(STORAGE_KEY, ...)`. -/
def setTransKey (kv : KV) (l : List Transaction) : Except DBErr KV :=
  if kv.failTransWrite then .error .storeFailure
  else .ok { kv with transKey := some l }

/-- `AsyncStorage.setItem(GOALS_STORAGE_KEY, ...)`. -/
def setGoalsKey (kv : KV) (l : List BudgetGoal) : Except DBErr KV :=
  if kv.failGoalsWrite then .error .storeFailure
  else .ok { kv with goalsKey := some l }

/-- `AsyncStorage.setItem(CATEGORIES_STORAGE_KEY, ...)`. -/
def setCatsKey (kv : KV) (l : List Category) : Except DBErr KV :=
  if kv.failCatsWrite then .error .storeFailure
  else .ok { kv with catsKey := some l }

/-- Leap-year rule of the proleptic Gregorian calendar used by JS `Date`. -/
def isLeap (y : Nat) : Bool :=
  (y % 4 = 0 && y % 100 ≠ 0) || y % 400 = 0

/-- Number of days in month `m` (1-based) of year `y`; this is the day
component of the normalised `new Date(year, month, 0, ...)`. -/
def daysInMonth (m y : Nat) : Nat :=
  if m = 2 then (if isLeap y then 29 else 28)
  else if m = 4 ∨ m = 6 ∨ m = 9 ∨ m = 11 then 30
  else 31

/-- `new Date(year, month - 1, 1)` with 1-based `m`. -/
def startDate (m y : Nat) : DateT :=
  ⟨y, m, 1, 0, 0, 0, 0⟩

/-- `new Date(year, month, 0, 23, 59, 59)` with 1-based `m`: the last day of
the month at 23:59:59 and zero milliseconds. -/
def endDate (m y : Nat) : DateT :=
  ⟨y, m, daysInMonth m y, 23, 59, 59, 0⟩

/-- The filter predicate `transactionDate >= startDate && transactionDate <= endDate`. -/
def inRangeB (m y : Nat) (t : Transaction) : Bool :=
  decide ((startDate m y).val ≤ t.date.val ∧ t.date.val ≤ (endDate m y).val)

/-- Comparator order of `sort((a, b) => b.date - a.date)`: `a` may precede
`b` exactly when `b`'s date is at most `a`'s. -/
def dateLe (a b : Transaction) : Prop :=
  b.date.val ≤ a.date.val

instance : DecidableRel dateLe := fun _ _ => Nat.decLe _ _

instance : IsTotal Transaction dateLe :=
  ⟨fun a b => (Nat.le_total a.date.val b.date.val).symm⟩

instance : IsTrans Transaction dateLe :=
  ⟨fun _ _ _ hab hbc => Nat.le_trans hbc hab⟩

/-- The stable descending-by-date sort performed by `getTransactions`;
JS `Array.prototype.sort` is stable, and a stable sort's output is uniquely
determined by the comparator, so insertion sort embeds it faithfully. -/
def sortByDateDesc (l : List Transaction) : List Transaction :=
  l.insertionSort dateLe

/-- `getTransactions(month?, year?)`.  The `catch` swallows read failures and
returns `[]`; `if (month && year)` is JS truthiness, so a zero selector
disables the filter. -/
def getTransactions (kv : KV) (month year : Option Nat) : List Transaction :=
  if kv.failTransRead then []
  else
    match kv.transKey with
    | none => []
    | some ts =>
      let filtered :=
        match month, year with
        | some m, some y => if m ≠ 0 ∧ y ≠ 0 then ts.filter (inRangeB m y) else ts
        | _, _ => ts
      sortByDateDesc filtered

/-- `addTransaction(transaction)`, with the generated id passed explicitly;
a write failure is rethrown. -/
def addTransaction (kv : KV) (draft : TxDraft) (gid : String) :
    Except DBErr Transaction × KV :=
  let newT : Transaction :=
    ⟨gid, draft.type, draft.category, draft.amount, draft.description, draft.date⟩
  let existing := getTransactions kv none none
  match setTransKey kv (newT :: existing) with
  | .error e => (.error e, kv)
  | .ok kv' => (.ok newT, kv')

/-- `deleteTransaction(id)`; a write failure is rethrown. -/
def deleteTransaction (kv : KV) (id : String) : Except DBErr Unit × KV :=
  let ts := getTransactions kv none none
  match setTransKey kv (ts.filter fun t => t.id != id) with
  | .error e => (.error e, kv)
  | .ok kv' => (.ok (), kv')

/-- `getBudgetGoals()`: absent key and read failures both yield `[]`. -/
def getBudgetGoals (kv : KV) : List BudgetGoal :=
  if kv.failGoalsRead then []
  else kv.goalsKey.getD []

/-- The fold step of `expensesByCategory`:
`acc[t.category] = (acc[t.category] || 0) + t.amount`, updating the first
binding in place or appending a fresh key. -/
def updateAcc (acc : List (String × ℚ)) (c : String) (a : ℚ) : List (String × ℚ) :=
  match acc with
  | [] => [(c, a)]
  | (k, v) :: rest =>
    if k = c then (k, v + a) :: rest else (k, v) :: updateAcc rest c a

structure Stats where
  totalIncome : ℚ
  totalExpense : ℚ
  netBalance : ℚ
  expensesByCategory : List (String × ℚ)
deriving DecidableEq

/-- `getTransactionStats(month?, year?)`. -/
def getTransactionStats (kv : KV) (month year : Option Nat) : Stats :=
  let ts := getTransactions kv month year
  let totalIncome :=
    (ts.filter fun t => t.type == TxType.income).foldl (fun s t => s + t.amount) 0
  let totalExpense :=
    (ts.filter fun t => t.type == TxType.expense).foldl (fun s t => s + t.amount) 0
  { totalIncome := totalIncome
    totalExpense := totalExpense
    netBalance := totalIncome - totalExpense
    expensesByCategory :=
      (ts.filter fun t => t.type == TxType.expense).foldl
        (fun acc t => updateAcc acc t.category t.amount) [] }

structure Alert where
  goal : BudgetGoal
  currentSpending : ℚ
  percentage : ℚ
deriving DecidableEq

structure AlertResult where
  exceededGoals : List Alert
  warningGoals : List Alert
deriving DecidableEq

/-- `stats.expensesByCategory[goal.category] || 0` (a stored 0 is falsy, so
this agrees with defaulting an absent key to 0). -/
def spendingOf (expByCat : List (String × ℚ)) (c : String) : ℚ :=
  (List.lookup c expByCat).getD 0

/-- The body of the `goals.forEach` loop in `checkBudgetAlerts`: skip
inactive goals, compute the percentage, push into one of the two lists. -/
def alertStep (expByCat : List (String × ℚ)) (acc : List Alert × List Alert)
    (g : BudgetGoal) : List Alert × List Alert :=
  if g.isActive = false then acc
  else
    let cs := spendingOf expByCat g.category
    let p := cs / g.amount * 100
    if 100 ≤ p then (acc.1 ++ [⟨g, cs, p⟩], acc.2)
    else if 80 ≤ p then (acc.1, acc.2 ++ [⟨g, cs, p⟩])
    else acc

/-- The classification loop of `checkBudgetAlerts`, abstracted over the goal
list and the statistics result it consumes. -/
def checkBudgetAlertsCore (goals : List BudgetGoal)
    (expByCat : List (String × ℚ)) : List Alert × List Alert :=
  goals.foldl (alertStep expByCat) ([], [])

/-- `checkBudgetAlerts(month?, year?)`; the surrounding `catch` is
unreachable in the embedding because the modelled reads never throw. -/
def checkBudgetAlerts (kv : KV) (month year : Option Nat) : AlertResult :=
  let goals := getBudgetGoals kv
  let stats := getTransactionStats kv month year
  let r := checkBudgetAlertsCore goals stats.expensesByCategory
  ⟨r.1, r.2⟩

/-- The default category names seeded on first use (10 expense, 6 income);
`new Date().toISOString()` timestamps are modelled by `""`. -/
def defaultCategories : List Category :=
  (List.enum ["Food & Dining", "Transportation", "Shopping", "Entertainment",
      "Healthcare", "Utilities", "Housing", "Education", "Travel", "Other"]).map
    (fun p => ⟨"expense-" ++ toString p.1, p.2, TxType.expense, false, none, ""⟩)
  ++ (List.enum ["Salary", "Freelance", "Investment", "Business", "Gift",
      "Other Income"]).map
    (fun p => ⟨"income-" ++ toString p.1, p.2, TxType.income, false, none, ""⟩)

/-- `getCategories()`: an absent key seeds and persists the defaults; read
failures, and a write failure during seeding, are swallowed into `[]`. -/
def getCategories (kv : KV) : List Category × KV :=
  if kv.failCatsRead then ([], kv)
  else
    match kv.catsKey with
    | some cs => (cs, kv)
    | none =>
      match setCatsKey kv defaultCategories with
      | .error _ => ([], kv)
      | .ok kv' => (defaultCategories, kv')

/-- Pointwise cascade on one transaction: rewrite its category if it equals
the old name. -/
def renameTx (oldN newN : String) (t : Transaction) : Transaction :=
  if t.category = oldN then { t with category := newN } else t

/-- Pointwise cascade on one goal. -/
def renameGoal (oldN newN : String) (g : BudgetGoal) : BudgetGoal :=
  if g.category = oldN then { g with category := newN } else g

/-- `updateCategoryInTransactions(old, new)`: reads (swallowing failures),
rewrites matching records, writes back; a write failure is rethrown. -/
def updateCategoryInTransactions (kv : KV) (oldN newN : String) :
    Except DBErr Unit × KV :=
  let ts := getTransactions kv none none
  match setTransKey kv (ts.map (renameTx oldN newN)) with
  | .error e => (.error e, kv)
  | .ok kv' => (.ok (), kv')

/-- `updateCategoryInGoals(old, new)`. -/
def updateCategoryInGoals (kv : KV) (oldN newN : String) :
    Except DBErr Unit × KV :=
  let gs := getBudgetGoals kv
  match setGoalsKey kv (gs.map (renameGoal oldN newN)) with
  | .error e => (.error e, kv)
  | .ok kv' => (.ok (), kv')

/-- `{ ...oldCategory, ...updates }`. -/
def applyUpdate (c : Category) (u : CategoryUpdate) : Category :=
  { id := u.id.getD c.id
    name := u.name.getD c.name
    type := u.type.getD c.type
    isCustom := u.isCustom.getD c.isCustom
    icon := u.icon.getD c.icon
    createdAt := u.createdAt.getD c.createdAt }

/-- `findIndex` followed by in-place replacement: locate the first category
with the given id, returning it together with the updated list. -/
def updateFirstById (id : String) (u : CategoryUpdate) :
    List Category → Option (Category × List Category)
  | [] => none
  | c :: cs =>
    if c.id = id then some (c, applyUpdate c u :: cs)
    else
      match updateFirstById id u cs with
      | none => none
      | some (old, cs') => some (old, c :: cs')

/-- The cascade guard `updates.name && oldCategory.name !== updates.name`:
JS truthiness makes an absent or empty new name skip the cascade. -/
def cascadeCond (old : Category) (u : CategoryUpdate) : Option String :=
  match u.name with
  | some n => if n ≠ "" ∧ old.name ≠ n then some n else none
  | none => none

/-- `updateCategory(id, updates)`: NotFound when no category has the id;
on a (truthy) name change, cascade into transactions then goals **before**
persisting the category list; errors are rethrown with the store as
reached. -/
def updateCategory (kv : KV) (id : String) (u : CategoryUpdate) :
    Except DBErr Unit × KV :=
  let r := getCategories kv
  let cats := r.1
  let kv1 := r.2
  match updateFirstById id u cats with
  | none => (.error .notFound, kv1)
  | some (old, cats') =>
    match cascadeCond old u with
    | some n =>
      match updateCategoryInTransactions kv1 old.name n with
      | (.error e, kv2) => (.error e, kv2)
      | (.ok _, kv2) =>
        match updateCategoryInGoals kv2 old.name n with
        | (.error e, kv3) => (.error e, kv3)
        | (.ok _, kv3) =>
          match setCatsKey kv3 cats' with
          | .error e => (.error e, kv3)
          | .ok kv4 => (.ok (), kv4)
    | none =>
      match setCatsKey kv1 cats' with
      | .error e => (.error e, kv1)
      | .ok kv2 => (.ok (), kv2)

/-- `deleteCategory(id)`: NotFound when no category has the id, a domain
error when the category is not custom (both before any write); otherwise
cascade both stores to `"Other"`, then persist the filtered category list. -/
def deleteCategory (kv : KV) (id : String) : Except DBErr Unit × KV :=
  let r := getCategories kv
  let cats := r.1
  let kv1 := r.2
  match cats.find? (fun c => c.id == id) with
  | none => (.error .notFound, kv1)
  | some c =>
    if c.isCustom = false then (.error .cannotDeleteDefault, kv1)
    else
      let cats' := cats.filter fun x => x.id != id
      match updateCategoryInTransactions kv1 c.name "Other" with
      | (.error e, kv2) => (.error e, kv2)
      | (.ok _, kv2) =>
        match updateCategoryInGoals kv2 c.name "Other" with
        | (.error e, kv3) => (.error e, kv3)
        | (.ok _, kv3) =>
          match setCatsKey kv3 cats' with
          | .error e => (.error e, kv3)
          | .ok kv4 => (.ok (), kv4)

/-! ## General lemmas about the statistics folds -/

theorem foldl_amount_eq_sum (l : List Transaction) (c : ℚ) :
    l.foldl (fun s t => s + t.amount) c = c + (l.map Transaction.amount).sum := by
  induction l generalizing c with
  | nil => simp
  | cons t ts ih => simp [ih, add_assoc]

theorem updateAcc_snd_sum (acc : List (String × ℚ)) (c : String) (a : ℚ) :
    ((updateAcc acc c a).map Prod.snd).sum = (acc.map Prod.snd).sum + a := by
  induction acc with
  | nil => simp [updateAcc]
  | cons p rest ih =>
    obtain ⟨k, v⟩ := p
    by_cases h : k = c
    · simp [updateAcc, h]
      ring
    · simp [updateAcc, h, ih]
      ring

theorem foldl_updateAcc_snd_sum (l : List Transaction) (acc : List (String × ℚ)) :
    ((l.foldl (fun acc t => updateAcc acc t.category t.amount) acc).map Prod.snd).sum
      = (acc.map Prod.snd).sum + (l.map Transaction.amount).sum := by
  induction l generalizing acc with
  | nil => simp
  | cons t ts ih => simp [ih, updateAcc_snd_sum, add_assoc]

theorem lookup_updateAcc_isSome (acc : List (String × ℚ)) (c k : String) (a : ℚ) :
    (List.lookup c (updateAcc acc k a)).isSome = true ↔
      c = k ∨ (List.lookup c acc).isSome = true := by
  induction acc with
  | nil =>
    by_cases h : c = k
    · have hb : (c == k) = true := by simpa using h
      simp [updateAcc, List.lookup, hb, h]
    · have hb : (c == k) = false := by simpa using h
      simp [updateAcc, List.lookup, hb, h]
  | cons p rest ih =>
    obtain ⟨k', v⟩ := p
    by_cases hk : k' = k
    · subst hk
      by_cases hc : c = k'
      · have hb : (c == k') = true := by simpa using hc
        simp [updateAcc, List.lookup, hb, hc]
      · have hb : (c == k') = false := by simpa using hc
        simp [updateAcc, List.lookup, hb, hc]
    · by_cases hc : c = k'
      · have hb : (c == k') = true := by simpa using hc
        simp [updateAcc, List.lookup, hk, hb, hc]
      · have hb : (c == k') = false := by simpa using hc
        simp [updateAcc, List.lookup, hk, hb, hc, ih]

theorem lookup_foldl_updateAcc_isSome (l : List Transaction)
    (acc : List (String × ℚ)) (c : String) :
    (List.lookup c (l.foldl (fun acc t => updateAcc acc t.category t.amount) acc)).isSome
        = true ↔
      (List.lookup c acc).isSome = true ∨ c ∈ l.map Transaction.category := by
  induction l generalizing acc with
  | nil => simp
  | cons t ts ih =>
    simp only [List.foldl_cons, ih, lookup_updateAcc_isSome, List.map_cons,
      List.mem_cons]
    tauto

/-! ## Claim theorems: statistics -/

/-- C2: for every stored transaction list and every (month, year) selector,
`getTransactionStats` returns `totalIncome` equal to the sum of amounts of
the filtered transactions with type income, `totalExpense` equal to the sum
of amounts of those with type expense, and `netBalance` exactly equal to
`totalIncome - totalExpense`. -/
theorem C2_stats_totals (kv : KV) (m y : Option Nat) :
    (getTransactionStats kv m y).totalIncome =
        (((getTransactions kv m y).filter fun t => t.type == TxType.income).map
          Transaction.amount).sum ∧
    (getTransactionStats kv m y).totalExpense =
        (((getTransactions kv m y).filter fun t => t.type == TxType.expense).map
          Transaction.amount).sum ∧
    (getTransactionStats kv m y).netBalance =
        (getTransactionStats kv m y).totalIncome
          - (getTransactionStats kv m y).totalExpense := by
  refine ⟨?_, ?_, rfl⟩ <;> simp [getTransactionStats, foldl_amount_eq_sum]

/-- C7: for every stored transaction list and every (month, year), the sum
over all values of `expensesByCategory` equals `totalExpense` of the same
result, exactly. -/
theorem C7_expenses_sum (kv : KV) (m y : Option Nat) :
    (((getTransactionStats kv m y).expensesByCategory).map Prod.snd).sum
      = (getTransactionStats kv m y).totalExpense := by
  simp [getTransactionStats, foldl_updateAcc_snd_sum, foldl_amount_eq_sum]

/-- C6 counterexample: a category appearing only on a zero-amount expense
transaction in the period IS present in `expensesByCategory` with value 0,
contradicting the claim that such a category is absent from the map. -/
def txC6 : Transaction :=
  ⟨"t1", TxType.expense, "Food", 0, none, ⟨2024, 1, 5, 0, 0, 0, 0⟩⟩

def kvC6 : KV :=
  ⟨some [txC6], none, none, false, false, false, false, false, false⟩

/-- C6 is refuted at an explicit input: with a single zero-amount expense
transaction in category "Food" inside the period, the map binds "Food" to 0
instead of omitting it. -/
theorem C6_cex_zero_amount_key :
    List.lookup "Food" (getTransactionStats kvC6 (some 1) (some 2024)).expensesByCategory
      = some 0 := by
  rfl

/-- C6 as amended: `expensesByCategory` has a key exactly for the categories
appearing on at least one filtered expense transaction; a category whose
expense transactions in the period all have amount 0 is present with value
0, and only categories with no expense transaction in the period are
absent. -/
theorem C6_key_presence (kv : KV) (m y : Option Nat) (c : String) :
    (List.lookup c (getTransactionStats kv m y).expensesByCategory).isSome = true ↔
      c ∈ (((getTransactions kv m y).filter fun t => t.type == TxType.expense).map
            Transaction.category) := by
  simp only [getTransactionStats]
  rw [lookup_foldl_updateAcc_isSome]
  simp [List.lookup]

/-! ## Claim theorems: alert evaluation -/

/-- Percentage of the goal's limit spent, as computed by the evaluator. -/
def pctOf (expByCat : List (String × ℚ)) (g : BudgetGoal) : ℚ :=
  spendingOf expByCat g.category / g.amount * 100

/-- The entry pushed into an alert list for goal `g`. -/
def mkAlert (expByCat : List (String × ℚ)) (g : BudgetGoal) : Alert :=
  ⟨g, spendingOf expByCat g.category, pctOf expByCat g⟩

/-- Exceeded classification: an active goal at 100% or more. -/
def isExceeded (expByCat : List (String × ℚ)) (g : BudgetGoal) : Bool :=
  g.isActive && decide (100 ≤ pctOf expByCat g)

/-- Warning classification: an active goal at 80% or more but below 100%. -/
def isWarning (expByCat : List (String × ℚ)) (g : BudgetGoal) : Bool :=
  g.isActive && decide (80 ≤ pctOf expByCat g) && decide (pctOf expByCat g < 100)

theorem alertStep_inactive (expByCat : List (String × ℚ))
    (acc : List Alert × List Alert) (g : BudgetGoal) (hA : g.isActive = false) :
    alertStep expByCat acc g = acc := by
  unfold alertStep
  rw [if_pos hA]

theorem alertStep_exceeded (expByCat : List (String × ℚ))
    (acc : List Alert × List Alert) (g : BudgetGoal) (hA : g.isActive = true)
    (h : 100 ≤ pctOf expByCat g) :
    alertStep expByCat acc g = (acc.1 ++ [mkAlert expByCat g], acc.2) := by
  unfold alertStep
  rw [if_neg (by simp [hA] : ¬ g.isActive = false)]
  dsimp only
  simp only [pctOf] at h
  rw [if_pos h]
  rfl

theorem alertStep_warning (expByCat : List (String × ℚ))
    (acc : List Alert × List Alert) (g : BudgetGoal) (hA : g.isActive = true)
    (h100 : ¬ 100 ≤ pctOf expByCat g) (h80 : 80 ≤ pctOf expByCat g) :
    alertStep expByCat acc g = (acc.1, acc.2 ++ [mkAlert expByCat g]) := by
  unfold alertStep
  rw [if_neg (by simp [hA] : ¬ g.isActive = false)]
  dsimp only
  simp only [pctOf] at h100 h80
  rw [if_neg h100, if_pos h80]
  rfl

theorem alertStep_quiet (expByCat : List (String × ℚ))
    (acc : List Alert × List Alert) (g : BudgetGoal) (hA : g.isActive = true)
    (h100 : ¬ 100 ≤ pctOf expByCat g) (h80 : ¬ 80 ≤ pctOf expByCat g) :
    alertStep expByCat acc g = acc := by
  unfold alertStep
  rw [if_neg (by simp [hA] : ¬ g.isActive = false)]
  dsimp only
  simp only [pctOf] at h100 h80
  rw [if_neg h100, if_neg h80]

theorem foldl_alertStep_eq (expByCat : List (String × ℚ))
    (goals : List BudgetGoal) (acc : List Alert × List Alert) :
    goals.foldl (alertStep expByCat) acc =
      (acc.1 ++ (goals.filter (isExceeded expByCat)).map (mkAlert expByCat),
       acc.2 ++ (goals.filter (isWarning expByCat)).map (mkAlert expByCat)) := by
  induction goals generalizing acc with
  | nil => simp
  | cons g gs ih =>
    rw [List.foldl_cons, ih]
    rcases hA : g.isActive with _ | _
    · have hE : isExceeded expByCat g = false := by simp [isExceeded, hA]
      have hW : isWarning expByCat g = false := by simp [isWarning, hA]
      rw [alertStep_inactive expByCat acc g hA]
      simp [List.filter_cons, hE, hW]
    · by_cases h100 : (100 : ℚ) ≤ pctOf expByCat g
      · have hE : isExceeded expByCat g = true := by simp [isExceeded, hA, h100]
        have hW : isWarning expByCat g = false := by
          simp [isWarning, not_lt.mpr h100]
        rw [alertStep_exceeded expByCat acc g hA h100]
        simp [List.filter_cons, hE, hW]
      · by_cases h80 : (80 : ℚ) ≤ pctOf expByCat g
        · have hE : isExceeded expByCat g = false := by
            simp [isExceeded, h100]
          have hW : isWarning expByCat g = true := by
            simp [isWarning, hA, h80, not_le.mp h100]
          rw [alertStep_warning expByCat acc g hA h100 h80]
          simp [List.filter_cons, hE, hW]
        · have hE : isExceeded expByCat g = false := by
            simp [isExceeded, h100]
          have hW : isWarning expByCat g = false := by
            simp [isWarning, h80]
          rw [alertStep_quiet expByCat acc g hA h100 h80]
          simp [List.filter_cons, hE, hW]

/-- The concrete goal of the claim's numeric instance: limit 500, active. -/
def goalC1 : BudgetGoal :=
  ⟨"g1", "Food", 500, GoalPeriod.monthly, true, ""⟩

/-- C1: the alert evaluator considers exactly the active goals; each active
goal's `currentSpending` is the `expensesByCategory` entry for its category
(0 if absent) and its percentage is `currentSpending / amount * 100`; a goal
lands in `exceededGoals` iff its percentage is at least 100 and in
`warningGoals` iff the percentage is in [80, 100); in particular spending
400 against limit 500 is exactly 80% and a warning, and spending 500 is
exactly 100% and exceeded. -/
theorem C1_alert_classification :
    (∀ (goals : List BudgetGoal) (expByCat : List (String × ℚ)),
      (checkBudgetAlertsCore goals expByCat).1 =
          (goals.filter (isExceeded expByCat)).map (mkAlert expByCat) ∧
      (checkBudgetAlertsCore goals expByCat).2 =
          (goals.filter (isWarning expByCat)).map (mkAlert expByCat)) ∧
    checkBudgetAlertsCore [goalC1] [("Food", 400)] = ([], [⟨goalC1, 400, 80⟩]) ∧
    checkBudgetAlertsCore [goalC1] [("Food", 500)] = ([⟨goalC1, 500, 100⟩], []) := by
  refine ⟨fun goals expByCat => ?_, ?_, ?_⟩
  · rw [checkBudgetAlertsCore, foldl_alertStep_eq]
    exact ⟨rfl, rfl⟩
  · have h80 : (400 : ℚ) / 500 * 100 = 80 := by norm_num
    simp [checkBudgetAlertsCore, alertStep, spendingOf, goalC1, List.lookup, h80]
    norm_num
  · have h100 : (500 : ℚ) / 500 * 100 = 100 := by norm_num
    simp [checkBudgetAlertsCore, alertStep, spendingOf, goalC1, List.lookup, h100]

/-! ## Claim theorems: month filtering and sorting -/

theorem filter_orderedInsert_val_eq (t : Transaction) (l : List Transaction)
    (d : Nat) (h : t.date.val = d) :
    (l.orderedInsert dateLe t).filter (fun x => x.date.val == d)
      = t :: l.filter (fun x => x.date.val == d) := by
  induction l with
  | nil => simp [List.orderedInsert, h]
  | cons b bs ih =>
    by_cases hb : dateLe t b
    · rw [List.orderedInsert, if_pos hb]
      simp [List.filter_cons, h]
    · rw [List.orderedInsert, if_neg hb]
      have hlt : t.date.val < b.date.val := Nat.lt_of_not_le hb
      have hbd : (b.date.val == d) = false := by
        simp only [beq_eq_false_iff_ne, ne_eq]
        omega
      simp [List.filter_cons, hbd, ih]

theorem filter_orderedInsert_val_ne (t : Transaction) (l : List Transaction)
    (d : Nat) (h : ¬ t.date.val = d) :
    (l.orderedInsert dateLe t).filter (fun x => x.date.val == d)
      = l.filter (fun x => x.date.val == d) := by
  induction l with
  | nil => simp [List.orderedInsert, h]
  | cons b bs ih =>
    by_cases hb : dateLe t b
    · rw [List.orderedInsert, if_pos hb]
      simp [List.filter_cons, h]
    · rw [List.orderedInsert, if_neg hb]
      simp [List.filter_cons, ih]

/-- Stability of the embedded sort: restricted to any fixed date value, the
sorted list lists the transactions in their original stored order. -/
theorem filter_val_sortByDateDesc (l : List Transaction) (d : Nat) :
    (sortByDateDesc l).filter (fun x => x.date.val == d)
      = l.filter (fun x => x.date.val == d) := by
  induction l with
  | nil => rfl
  | cons t ts ih =>
    simp only [sortByDateDesc, List.insertionSort] at ih ⊢
    by_cases h : t.date.val = d
    · rw [filter_orderedInsert_val_eq _ _ _ h, ih]
      simp [List.filter_cons, h]
    · rw [filter_orderedInsert_val_ne _ _ _ h, ih]
      simp [List.filter_cons, h]

/-- Modelled from the spec's words for comparison: the claimed window is
closed at "the last instant of the month", i.e. the last day of the month at
23:59:59.999. -/
def specLastInstant (m y : Nat) : DateT :=
  ⟨y, m, daysInMonth m y, 23, 59, 59, 999⟩

/-- Modelled from the spec's words for comparison: a transaction whose date
falls within [first day of the month, last instant of the month]
inclusive. -/
def specWithinMonth (m y : Nat) (t : Transaction) : Prop :=
  (startDate m y).val ≤ t.date.val ∧ t.date.val ≤ (specLastInstant m y).val

/-- A transaction dated at the last instant of January 2024
(23:59:59.999). -/
def txC3late : Transaction :=
  ⟨"t1", TxType.expense, "Food", 10, none, ⟨2024, 1, 31, 23, 59, 59, 999⟩⟩

def kvC3cex : KV :=
  ⟨some [txC3late], none, none, false, false, false, false, false, false⟩

/-- C3 is refuted at an explicit input: a transaction dated at the last
instant of the month (23:59:59.999) lies inside the claimed inclusive
window, yet `getTransactions` filters it out, because the code's end bound
`new Date(year, month, 0, 23, 59, 59)` has zero milliseconds. -/
theorem C3_cex_last_instant :
    specWithinMonth 1 2024 txC3late ∧
      getTransactions kvC3cex (some 1) (some 2024) = [] := by
  exact ⟨⟨by decide, by decide⟩, rfl⟩

/-- The property established for the amended claim C3: with both selectors
supplied (and nonzero, per JS truthiness), `getTransactions` returns exactly
the stored transactions whose date lies in the inclusive window from the
first day of the month at 00:00:00.000 to the last day at 23:59:59.000
(multiset equality and a pointwise membership characterisation), sorted by
date descending, with ties kept in the original stored order. -/
def MonthWindowProp (kv : KV) (ts : List Transaction) (m y : Nat) : Prop :=
  (getTransactions kv (some m) (some y)).Perm (ts.filter (inRangeB m y)) ∧
  (∀ t : Transaction, t ∈ getTransactions kv (some m) (some y) ↔
      t ∈ ts ∧ (startDate m y).val ≤ t.date.val ∧ t.date.val ≤ (endDate m y).val) ∧
  (getTransactions kv (some m) (some y)).Pairwise dateLe ∧
  (∀ d : Nat, (getTransactions kv (some m) (some y)).filter (fun x => x.date.val == d)
      = (ts.filter (inRangeB m y)).filter (fun x => x.date.val == d))

/-- C3 as amended: the month window's upper bound is the last day of the
month at 23:59:59.000 — not the last instant of the month — and the result
is the window-filtered stored list, stably sorted by date descending. -/
theorem C3_month_window_sorted (kv : KV) (ts : List Transaction) (m y : Nat)
    (hr : kv.failTransRead = false) (hk : kv.transKey = some ts)
    (hm : m ≠ 0) (hy : y ≠ 0) :
    MonthWindowProp kv ts m y := by
  have hget : getTransactions kv (some m) (some y)
      = sortByDateDesc (ts.filter (inRangeB m y)) := by
    simp [getTransactions, hr, hk, hm, hy]
  refine ⟨?_, ?_, ?_, ?_⟩
  · rw [hget]
    exact List.perm_insertionSort dateLe _
  · intro t
    rw [hget, sortByDateDesc, List.mem_insertionSort, List.mem_filter]
    simp [inRangeB]
  · rw [hget]
    exact List.sorted_insertionSort dateLe _
  · intro d
    rw [hget]
    exact filter_val_sortByDateDesc _ _

def txC3a : Transaction :=
  ⟨"a", TxType.expense, "Food", 5, none, ⟨2024, 1, 10, 0, 0, 0, 0⟩⟩

def txC3b : Transaction :=
  ⟨"b", TxType.income, "Salary", 9, none, ⟨2024, 2, 1, 0, 0, 0, 0⟩⟩

def kvC3w : KV :=
  ⟨some [txC3a, txC3b], none, none, false, false, false, false, false, false⟩

/-- Witness for C3 at a two-transaction store and the January 2024 window. -/
theorem C3_month_window_sorted_witness : MonthWindowProp kvC3w [txC3a, txC3b] 1 2024 :=
  C3_month_window_sorted kvC3w [txC3a, txC3b] 1 2024 rfl rfl
    (by decide) (by decide)

/-! ## Claim theorems: adding transactions -/

/-- The property established for claim C8: `addTransaction` succeeds,
returns the draft with the generated id attached, prepends it to the stored
collection, and a subsequent `getTransactions()` contains it and lists it
before every pre-existing record with a strictly earlier date; assuming the
generated id is unused, id uniqueness is preserved. -/
def AddRoundTripProp (kv : KV) (draft : TxDraft) (gid : String) : Prop :=
  ∃ (kv' : KV) (newT : Transaction),
    addTransaction kv draft gid = (.ok newT, kv') ∧
    newT = ⟨gid, draft.type, draft.category, draft.amount, draft.description,
      draft.date⟩ ∧
    kv'.transKey = some (newT :: getTransactions kv none none) ∧
    newT ∈ getTransactions kv' none none ∧
    (∀ t0 ∈ getTransactions kv none none, t0.date.val < draft.date.val →
      ∀ i j : Fin (getTransactions kv' none none).length,
        (getTransactions kv' none none).get i = newT →
        (getTransactions kv' none none).get j = t0 → (i : Nat) < (j : Nat)) ∧
    (gid ∉ (getTransactions kv none none).map Transaction.id →
      ((getTransactions kv none none).map Transaction.id).Nodup →
      ((newT :: getTransactions kv none none).map Transaction.id).Nodup)

/-- C8: for every draft and prior store (with a working transactions key),
`addTransaction` assigns the generated id, prepends, and the new record is
returned by `getTransactions()` ahead of every strictly older record. -/
theorem C8_add_roundtrip (kv : KV) (draft : TxDraft) (gid : String)
    (h1 : kv.failTransRead = false) (h2 : kv.failTransWrite = false) :
    AddRoundTripProp kv draft gid := by
  refine ⟨{ kv with transKey := some (⟨gid, draft.type, draft.category,
      draft.amount, draft.description, draft.date⟩
        :: getTransactions kv none none) },
    ⟨gid, draft.type, draft.category, draft.amount, draft.description,
      draft.date⟩, ?_, rfl, rfl, ?_, ?_, ?_⟩
  · simp [addTransaction, setTransKey, h2]
  · rw [getTransactions]
    simp only [h1, if_false, Bool.false_eq_true]
    rw [sortByDateDesc, List.mem_insertionSort]
    exact List.mem_cons_self _ _
  · intro t0 _ hlt i j hi hj
    have hs : (getTransactions { kv with transKey := some (⟨gid, draft.type,
        draft.category, draft.amount, draft.description, draft.date⟩
          :: getTransactions kv none none) } none none).Pairwise dateLe := by
      rw [getTransactions]
      simp only [h1, if_false, Bool.false_eq_true]
      exact List.sorted_insertionSort dateLe _
    rcases lt_trichotomy ((i : Nat)) ((j : Nat)) with h | h | h
    · exact h
    · exfalso
      have hij : i = j := Fin.ext h
      subst hij
      rw [hi] at hj
      have hd : t0.date.val = draft.date.val := by rw [← hj]
      omega
    · exfalso
      have hp := List.pairwise_iff_get.mp hs j i h
      rw [hi, hj] at hp
      have hd : draft.date.val ≤ t0.date.val := hp
      omega
  · intro hnm hnd
    rw [List.map_cons]
    exact List.nodup_cons.mpr ⟨hnm, hnd⟩

def txC8old : Transaction :=
  ⟨"old1", TxType.expense, "Food", 25, none, ⟨2024, 1, 2, 0, 0, 0, 0⟩⟩

def kvC8 : KV :=
  ⟨some [txC8old], none, none, false, false, false, false, false, false⟩

def draftC8 : TxDraft :=
  ⟨TxType.income, "Salary", 900, some "pay", ⟨2024, 1, 20, 0, 0, 0, 0⟩⟩

/-- Witness for C8 at a concrete one-transaction store. -/
theorem C8_add_roundtrip_witness : AddRoundTripProp kvC8 draftC8 "fresh1" :=
  C8_add_roundtrip kvC8 draftC8 "fresh1" rfl rfl

/-! ## Claim theorems: category deletion -/

/-- C10: `deleteCategory` on an id matching no stored category throws
NotFound ("Category not found") rather than silently doing nothing, and the
store — all three collections — is returned unchanged. -/
theorem C10_delete_notFound (kv : KV) (cats : List Category) (id : String)
    (hr : kv.failCatsRead = false) (hk : kv.catsKey = some cats)
    (h : ∀ c ∈ cats, c.id ≠ id) :
    deleteCategory kv id = (.error .notFound, kv) := by
  have hf : cats.find? (fun c => c.id == id) = none := by
    rw [List.find?_eq_none]
    intro c hc
    simp [h c hc]
  simp [deleteCategory, getCategories, hr, hk, hf]

def catC10 : Category :=
  ⟨"c1", "Games", TxType.expense, true, none, ""⟩

def kvC10 : KV :=
  ⟨none, none, some [catC10], false, false, false, false, false, false⟩

/-- Witness for C10: deleting an unknown id at a one-category store. -/
theorem C10_delete_notFound_witness :
    deleteCategory kvC10 "nope" = (.error .notFound, kvC10) :=
  C10_delete_notFound kvC10 [catC10] "nope" rfl rfl (by decide)

/-- The property established for claim C5: deleting a non-custom category
fails with the domain error `'Cannot delete default categories'` and leaves
the store exactly unchanged; deleting a custom category rewrites the
category of every matching transaction and goal to the literal `"Other"`
and removes the category entry. -/
def DeleteCategoryProp : Prop :=
  (∀ (kv : KV) (cats : List Category) (id : String) (c : Category),
      kv.failCatsRead = false → kv.catsKey = some cats →
      cats.find? (fun x => x.id == id) = some c → c.isCustom = false →
      deleteCategory kv id = (.error .cannotDeleteDefault, kv)) ∧
  (∀ (kv : KV) (cats : List Category) (id : String) (c : Category),
      kv.failTransRead = false → kv.failTransWrite = false →
      kv.failGoalsRead = false → kv.failGoalsWrite = false →
      kv.failCatsRead = false → kv.failCatsWrite = false →
      kv.catsKey = some cats →
      cats.find? (fun x => x.id == id) = some c → c.isCustom = true →
      ∃ (kvf : KV) (l' : List Transaction),
        deleteCategory kv id = (.ok (), kvf) ∧
        kvf.transKey = some l' ∧
        l'.Perm ((kv.transKey.getD []).map (renameTx c.name "Other")) ∧
        kvf.goalsKey = some ((kv.goalsKey.getD []).map (renameGoal c.name "Other")) ∧
        kvf.catsKey = some (cats.filter fun x => x.id != id))

/-- C5: deleting a non-custom category fails with the invariant-violation
domain error and leaves transactions, goals and categories unchanged;
deleting a custom category reassigns its transactions and goals to "Other"
and removes the entry. -/
theorem C5_delete_category : DeleteCategoryProp := by
  constructor
  · intro kv cats id c hr hk hf hcust
    simp [deleteCategory, getCategories, hr, hk, hf, hcust]
  · intro kv cats id c f1 f2 f3 f4 f5 f6 hk hf hcust
    obtain ⟨tk, gk, ck, a1, a2, a3, a4, a5, a6⟩ := kv
    simp only at f1 f2 f3 f4 f5 f6 hk
    subst f1 f2 f3 f4 f5 f6 hk
    rcases tk with _ | ts0
    · refine ⟨⟨some [], some ((gk.getD []).map (renameGoal c.name "Other")),
          some (cats.filter fun x => x.id != id),
          false, false, false, false, false, false⟩, [], ?_, rfl, ?_, rfl, rfl⟩
      · simp [deleteCategory, getCategories, hf, hcust,
          updateCategoryInTransactions, updateCategoryInGoals, getTransactions,
          getBudgetGoals, setTransKey, setGoalsKey, setCatsKey]
      · simp
    · refine ⟨⟨some ((sortByDateDesc ts0).map (renameTx c.name "Other")),
          some ((gk.getD []).map (renameGoal c.name "Other")),
          some (cats.filter fun x => x.id != id),
          false, false, false, false, false, false⟩,
        (sortByDateDesc ts0).map (renameTx c.name "Other"), ?_, rfl, ?_, rfl, rfl⟩
      · simp [deleteCategory, getCategories, hf, hcust,
          updateCategoryInTransactions, updateCategoryInGoals, getTransactions,
          getBudgetGoals, setTransKey, setGoalsKey, setCatsKey]
      · exact (List.perm_insertionSort dateLe ts0).map _

def catC5def : Category :=
  ⟨"d1", "Utilities", TxType.expense, false, none, ""⟩

def txC5 : Transaction :=
  ⟨"t1", TxType.expense, "Games", 30, none, ⟨2024, 3, 4, 0, 0, 0, 0⟩⟩

def goalC5 : BudgetGoal :=
  ⟨"g1", "Games", 120, GoalPeriod.monthly, true, ""⟩

def kvC5def : KV :=
  ⟨some [txC5], some [goalC5], some [catC5def],
    false, false, false, false, false, false⟩

def catC5cus : Category :=
  ⟨"c1", "Games", TxType.expense, true, none, ""⟩

def kvC5cus : KV :=
  ⟨some [txC5], some [goalC5], some [catC5cus],
    false, false, false, false, false, false⟩

/-- Witness for C5: a non-custom category is refused with the store intact,
and a custom category cascades its transactions and goals to "Other". -/
theorem C5_delete_category_witness :
    deleteCategory kvC5def "d1" = (.error .cannotDeleteDefault, kvC5def) ∧
    ∃ (kvf : KV) (l' : List Transaction),
      deleteCategory kvC5cus "c1" = (.ok (), kvf) ∧
      kvf.transKey = some l' ∧
      l'.Perm ((kvC5cus.transKey.getD []).map (renameTx catC5cus.name "Other")) ∧
      kvf.goalsKey = some ((kvC5cus.goalsKey.getD []).map
        (renameGoal catC5cus.name "Other")) ∧
      kvf.catsKey = some ([catC5cus].filter fun x => x.id != "c1") :=
  ⟨C5_delete_category.1 kvC5def [catC5def] "d1" catC5def rfl rfl rfl rfl,
   C5_delete_category.2 kvC5cus [catC5cus] "c1" catC5cus rfl rfl rfl rfl rfl rfl
     rfl rfl rfl⟩

/-! ## Claim theorems: category update -/

def catC4 : Category :=
  ⟨"c1", "Food", TxType.expense, true, none, ""⟩

def txC4 : Transaction :=
  ⟨"t1", TxType.expense, "Food", 5, none, ⟨2024, 1, 5, 0, 0, 0, 0⟩⟩

def kvC4 : KV :=
  ⟨some [txC4], some [], some [catC4], false, false, false, false, false, false⟩

def updC4empty : CategoryUpdate :=
  ⟨none, some "", none, none, none, none⟩

/-- C4 is refuted at an explicit input: renaming category "Food" to the
empty string succeeds and changes the stored category's name — a name
change — yet the transaction tagged "Food" is not rewritten to the new
name, because the cascade guard `updates.name && ...` treats the empty
string as falsy. -/
theorem C4_cex_empty_rename :
    (updateCategory kvC4 "c1" updC4empty).1 = .ok () ∧
    (updateCategory kvC4 "c1" updC4empty).2.catsKey
        = some [{ catC4 with name := "" }] ∧
    (updateCategory kvC4 "c1" updC4empty).2.transKey = some [txC4] ∧
    txC4.category = catC4.name ∧ catC4.name ≠ "" := by
  exact ⟨rfl, rfl, rfl, rfl, by decide⟩

/-- The property established for the amended claim C4: a missing id fails
with NotFound leaving the store unchanged; an update whose new name is
nonempty and differs from the old one rewrites exactly the matching
transactions and goals to the new name and persists the updated category
list; and the cascade runs before the category list is persisted (a failing
goals write aborts with the transactions already rewritten and the category
key untouched). -/
def UpdateCategoryProp : Prop :=
  (∀ (kv : KV) (cats : List Category) (id : String) (u : CategoryUpdate),
      kv.failCatsRead = false → kv.catsKey = some cats →
      updateFirstById id u cats = none →
      updateCategory kv id u = (.error .notFound, kv)) ∧
  (∀ (kv : KV) (cats : List Category) (id : String) (u : CategoryUpdate)
      (old : Category) (cats' : List Category) (n : String),
      kv.failTransRead = false → kv.failTransWrite = false →
      kv.failGoalsRead = false → kv.failGoalsWrite = false →
      kv.failCatsRead = false → kv.failCatsWrite = false →
      kv.catsKey = some cats →
      updateFirstById id u cats = some (old, cats') →
      u.name = some n → n ≠ "" → old.name ≠ n →
      ∃ (kvf : KV) (l' : List Transaction),
        updateCategory kv id u = (.ok (), kvf) ∧
        kvf.transKey = some l' ∧
        l'.Perm ((kv.transKey.getD []).map (renameTx old.name n)) ∧
        kvf.goalsKey = some ((kv.goalsKey.getD []).map (renameGoal old.name n)) ∧
        kvf.catsKey = some cats') ∧
  (∀ (kv : KV) (cats : List Category) (id : String) (u : CategoryUpdate)
      (old : Category) (cats' : List Category) (n : String),
      kv.failCatsRead = false → kv.failTransRead = false →
      kv.failTransWrite = false → kv.failGoalsWrite = true →
      kv.catsKey = some cats →
      updateFirstById id u cats = some (old, cats') →
      u.name = some n → n ≠ "" → old.name ≠ n →
      (updateCategory kv id u).1 = .error .storeFailure ∧
      (updateCategory kv id u).2.transKey
          = some ((getTransactions kv none none).map (renameTx old.name n)) ∧
      (updateCategory kv id u).2.catsKey = kv.catsKey)

/-- C4 as amended: `updateCategory` fails with NotFound on an unknown id;
with a name change to a nonempty new name it rewrites exactly the matching
transactions and goals before persisting the category list; a rename to the
empty string skips the cascade (JS truthiness of the guard). -/
theorem C4_rename_cascade : UpdateCategoryProp := by
  refine ⟨?_, ?_, ?_⟩
  · intro kv cats id u hr hk hfind
    simp [updateCategory, getCategories, hr, hk, hfind]
  · intro kv cats id u old cats' n f1 f2 f3 f4 f5 f6 hk hfind hn hne hdiff
    obtain ⟨tk, gk, ck, a1, a2, a3, a4, a5, a6⟩ := kv
    simp only at f1 f2 f3 f4 f5 f6 hk
    subst f1 f2 f3 f4 f5 f6 hk
    have hcc : cascadeCond old u = some n := by
      simp [cascadeCond, hn, hne, hdiff]
    rcases tk with _ | ts0
    · refine ⟨⟨some [], some ((gk.getD []).map (renameGoal old.name n)),
          some cats', false, false, false, false, false, false⟩, [],
        ?_, rfl, ?_, rfl, rfl⟩
      · simp [updateCategory, getCategories, hfind, hcc,
          updateCategoryInTransactions, updateCategoryInGoals, getTransactions,
          getBudgetGoals, setTransKey, setGoalsKey, setCatsKey]
      · simp
    · refine ⟨⟨some ((sortByDateDesc ts0).map (renameTx old.name n)),
          some ((gk.getD []).map (renameGoal old.name n)),
          some cats', false, false, false, false, false, false⟩,
        (sortByDateDesc ts0).map (renameTx old.name n), ?_, rfl, ?_, rfl, rfl⟩
      · simp [updateCategory, getCategories, hfind, hcc,
          updateCategoryInTransactions, updateCategoryInGoals, getTransactions,
          getBudgetGoals, setTransKey, setGoalsKey, setCatsKey]
      · exact (List.perm_insertionSort dateLe ts0).map _
  · intro kv cats id u old cats' n f5 f1 f2 f4 hk hfind hn hne hdiff
    have hcc : cascadeCond old u = some n := by
      simp [cascadeCond, hn, hne, hdiff]
    refine ⟨?_, ?_, ?_⟩ <;>
      simp [updateCategory, getCategories, f5, f1, f2, f4, hk, hfind, hcc,
        updateCategoryInTransactions, updateCategoryInGoals, getTransactions,
        getBudgetGoals, setTransKey, setGoalsKey, setCatsKey]

def updC4dining : CategoryUpdate :=
  ⟨none, some "Dining", none, none, none, none⟩

def goalC4 : BudgetGoal :=
  ⟨"g1", "Food", 200, GoalPeriod.monthly, true, ""⟩

def kvC4w : KV :=
  ⟨some [txC4], some [goalC4], some [catC4],
    false, false, false, false, false, false⟩

def kvC4f : KV :=
  ⟨some [txC4], some [goalC4], some [catC4],
    false, false, false, true, false, false⟩

def catC4dining : Category :=
  ⟨"c1", "Dining", TxType.expense, true, none, ""⟩

/-- Witness for C4: an unknown id is NotFound with the store unchanged; a
rename "Food" to "Dining" cascades into the matching transaction and goal;
and with a failing goals write the error surfaces with the transactions
already rewritten and the category key untouched. -/
theorem C4_rename_cascade_witness :
    updateCategory kvC4w "zz" updC4dining = (.error .notFound, kvC4w) ∧
    (∃ (kvf : KV) (l' : List Transaction),
      updateCategory kvC4w "c1" updC4dining = (.ok (), kvf) ∧
      kvf.transKey = some l' ∧
      l'.Perm ((kvC4w.transKey.getD []).map (renameTx catC4.name "Dining")) ∧
      kvf.goalsKey = some ((kvC4w.goalsKey.getD []).map
        (renameGoal catC4.name "Dining")) ∧
      kvf.catsKey = some [catC4dining]) ∧
    ((updateCategory kvC4f "c1" updC4dining).1 = .error .storeFailure ∧
      (updateCategory kvC4f "c1" updC4dining).2.transKey
          = some ((getTransactions kvC4f none none).map (renameTx catC4.name "Dining")) ∧
      (updateCategory kvC4f "c1" updC4dining).2.catsKey = kvC4f.catsKey) :=
  ⟨C4_rename_cascade.1 kvC4w [catC4] "zz" updC4dining rfl rfl rfl,
   C4_rename_cascade.2.1 kvC4w [catC4] "c1" updC4dining catC4 [catC4dining]
     "Dining" rfl rfl rfl rfl rfl rfl rfl rfl rfl (by decide) (by decide),
   C4_rename_cascade.2.2 kvC4f [catC4] "c1" updC4dining catC4 [catC4dining]
     "Dining" rfl rfl rfl rfl rfl rfl rfl (by decide) (by decide)⟩

/-! ## Claim theorems: failure handling -/

def txC9 : Transaction :=
  ⟨"t1", TxType.expense, "Food", 500, none, ⟨2024, 1, 5, 0, 0, 0, 0⟩⟩

def goalC9 : BudgetGoal :=
  ⟨"g1", "Food", 500, GoalPeriod.monthly, true, ""⟩

def kvC9fail : KV :=
  ⟨some [txC9], some [goalC9], none, true, false, false, false, false, false⟩

def kvC9ok : KV :=
  ⟨some [txC9], some [goalC9], none, false, false, false, false, false, false⟩

/-- C9 is refuted at an explicit input: with the stored data present but the
transactions read failing, `getTransactions` returns the default `[]`
instead of surfacing an error, and `checkBudgetAlerts` reports no alerts —
although the very same store with the read working reports the goal as
exceeded. -/
theorem C9_cex_read_failure_default :
    getTransactions kvC9fail none none = [] ∧
    checkBudgetAlerts kvC9fail (some 1) (some 2024) = ⟨[], []⟩ ∧
    checkBudgetAlerts kvC9ok (some 1) (some 2024) = ⟨[⟨goalC9, 500, 100⟩], []⟩ := by
  refine ⟨rfl, ?_, ?_⟩
  · have h100 : ¬ (100 : ℚ) ≤ pctOf [] goalC9 := by
      norm_num [pctOf, spendingOf, goalC9, List.lookup]
    have h80 : ¬ (80 : ℚ) ≤ pctOf [] goalC9 := by
      norm_num [pctOf, spendingOf, goalC9, List.lookup]
    have hq : checkBudgetAlertsCore [goalC9] [] = ([], []) := by
      rw [checkBudgetAlertsCore, List.foldl_cons, List.foldl_nil,
        alertStep_quiet _ _ _ rfl h100 h80]
    rw [show checkBudgetAlerts kvC9fail (some 1) (some 2024)
        = ⟨(checkBudgetAlertsCore [goalC9] []).1,
            (checkBudgetAlertsCore [goalC9] []).2⟩ from rfl, hq]
  · have h100 : (100 : ℚ) ≤ pctOf [("Food", 500)] goalC9 := by
      norm_num [pctOf, spendingOf, goalC9, List.lookup]
    have hq : checkBudgetAlertsCore [goalC9] [("Food", 500)]
        = ([⟨goalC9, 500, 100⟩], []) := by
      rw [checkBudgetAlertsCore, List.foldl_cons, List.foldl_nil,
        alertStep_exceeded _ _ _ rfl h100]
      norm_num [mkAlert, pctOf, spendingOf, goalC9, List.lookup]
    rw [show checkBudgetAlerts kvC9ok (some 1) (some 2024)
        = ⟨(checkBudgetAlertsCore [goalC9] [("Food", 500)]).1,
            (checkBudgetAlertsCore [goalC9] [("Food", 500)]).2⟩ from rfl, hq]

/-- The property established for the amended claim C9: write failures are
propagated to the caller as errors with the store unchanged, but read
failures inside `getTransactions` and `checkBudgetAlerts` are caught and
replaced by default empty results instead of surfacing. -/
def FailurePropagationProp : Prop :=
  (∀ (kv : KV) (m y : Option Nat), kv.failTransRead = true →
      getTransactions kv m y = []) ∧
  (∀ (kv : KV) (m y : Option Nat), kv.failGoalsRead = true →
      checkBudgetAlerts kv m y = ⟨[], []⟩) ∧
  (∀ (kv : KV) (draft : TxDraft) (gid : String), kv.failTransWrite = true →
      addTransaction kv draft gid = (.error .storeFailure, kv)) ∧
  (∀ (kv : KV) (id : String), kv.failTransWrite = true →
      deleteTransaction kv id = (.error .storeFailure, kv))

/-- C9 as amended: a failing write in `addTransaction` or
`deleteTransaction` is rethrown to the immediate caller and leaves the
store unchanged; a failing read in `getTransactions` yields the default
`[]`, and `checkBudgetAlerts` on a failing goals read yields empty alert
lists — read failures are swallowed, not propagated. -/
theorem C9_failure_propagation : FailurePropagationProp := by
  refine ⟨?_, ?_, ?_, ?_⟩
  · intro kv m y h
    simp [getTransactions, h]
  · intro kv m y h
    simp [checkBudgetAlerts, getBudgetGoals, h, checkBudgetAlertsCore]
  · intro kv draft gid h
    simp [addTransaction, setTransKey, h]
  · intro kv id h
    simp [deleteTransaction, setTransKey, h]

def kvC9goals : KV :=
  ⟨some [txC9], some [goalC9], none, false, false, true, false, false, false⟩

def kvC9w : KV :=
  ⟨some [txC9], none, none, false, true, false, false, false, false⟩

def draftC9 : TxDraft :=
  ⟨TxType.income, "Salary", 77, none, ⟨2024, 2, 2, 0, 0, 0, 0⟩⟩

/-- Witness for C9 at concrete failing stores. -/
theorem C9_failure_propagation_witness :
    getTransactions kvC9fail (some 1) (some 2024) = [] ∧
    checkBudgetAlerts kvC9goals none none = ⟨[], []⟩ ∧
    addTransaction kvC9w draftC9 "id1" = (.error .storeFailure, kvC9w) ∧
    deleteTransaction kvC9w "t1" = (.error .storeFailure, kvC9w) :=
  ⟨C9_failure_propagation.1 kvC9fail (some 1) (some 2024) rfl,
   C9_failure_propagation.2.1 kvC9goals none none rfl,
   C9_failure_propagation.2.2.1 kvC9w draftC9 "id1" rfl,
   C9_failure_propagation.2.2.2 kvC9w "t1" rfl⟩

end BudgetApp
